import Mathlib

/-!
Verification of the question-routing and SQL-templating core of
`ai_query_utils.py` (streamlit chatbot repository).

The Python module is shallowly embedded: Python dict rows become
association lists over a small `PyValue` type, the warehouse connection
is abstracted as an environment `SqlEnv` that, for each SQL text, either
raises an exception (with the exception's text) during one of the
connection/execute/fetch phases or returns a tabular result, and the
module's `try/except` blocks become explicit `Except String` plumbing
with a top-level catch.  Each definition is a direct translation of the
corresponding Python function, keeping its name where possible.
-/

/-- Values that can appear in a result row: the Python values the module
actually manipulates (ints, strings, None). -/
inductive PyValue where
  | vInt (i : Int)
  | vStr (s : String)
  | vNone
deriving DecidableEq

/-- A row of a result set.  `pandas.DataFrame.to_dict('records')` yields
name-keyed dictionaries (`dict`); the orchestrator's `isinstance(row, dict)`
guards also allow for non-dict rows, modelled by `seq` (a plain ordered
sequence of values). -/
inductive PyRow where
  | dict (fields : List (String × PyValue))
  | seq (values : List PyValue)
deriving DecidableEq

/-- Python truthiness of an optional string (`None` and `""` are falsy),
as used by `if not warehouse_id`, `if not user_token`, `if user_token`. -/
def pyTruthyStr : Option String → Bool
  | Option.none => false
  | Option.some s => if s = "" then false else true

/-- Python truthiness of a `PyValue` (`0`, `""` and `None` are falsy). -/
def pyTruthyValue : PyValue → Bool
  | PyValue.vInt i => if i = 0 then false else true
  | PyValue.vStr s => if s = "" then false else true
  | PyValue.vNone => false

/-- Python truthiness of `dict.get(key)` (absent key yields `None`, falsy). -/
def pyTruthyOptValue : Option PyValue → Bool
  | Option.none => false
  | Option.some v => pyTruthyValue v

/-- Python `str()` of a value. -/
def pyStrValue : PyValue → String
  | PyValue.vInt i => toString i
  | PyValue.vStr s => s
  | PyValue.vNone => "None"

/-- Python `repr()` of a value, as used inside `str(dict)`. -/
def pyReprValue : PyValue → String
  | PyValue.vInt i => toString i
  | PyValue.vStr s => "'" ++ s ++ "'"
  | PyValue.vNone => "None"

/-- Python `str()` of a row (`str(dict)` / `str(list)` rendering). -/
def pyStrRow : PyRow → String
  | PyRow.dict fields =>
      "\x7b" ++ String.intercalate ", "
        (fields.map (fun kv => "'" ++ kv.1 ++ "': " ++ pyReprValue kv.2)) ++ "\x7d"
  | PyRow.seq vs => "[" ++ String.intercalate ", " (vs.map pyReprValue) ++ "]"

/-- `dict.get(key, default)` on a field list (first binding wins). -/
def dictGet (fields : List (String × PyValue)) (key : String) (dflt : PyValue) : PyValue :=
  match fields.lookup key with
  | Option.none => dflt
  | Option.some v => v

/-- `dict.get(key)` on a field list (absent key yields `None`). -/
def dictGetOpt (fields : List (String × PyValue)) (key : String) : Option PyValue :=
  fields.lookup key

/-- `row.get(key, default)`: succeeds on a dict row, raises Python's
`AttributeError` text on a plain-sequence row. -/
def rowGet (row : PyRow) (key : String) (dflt : PyValue) : Except String PyValue :=
  match row with
  | PyRow.dict fields => Except.ok (dictGet fields key dflt)
  | PyRow.seq _ => Except.error "'list' object has no attribute 'get'"

/-- Python `lst[0]`: raises `IndexError` text on an empty list. -/
def listIndex0 (l : List PyRow) : Except String PyRow :=
  match l with
  | [] => Except.error "list index out of range"
  | r :: _ => Except.ok r

/-- Does `cs` start with `ps`? (character-list level). -/
def charsStartWith : List Char → List Char → Bool
  | _, [] => true
  | [], _ :: _ => false
  | c :: cs, p :: ps => (c = p) && charsStartWith cs ps

/-- Does `cs` contain `ps` as a contiguous run? (Python `ps in cs`). -/
def charsContain : List Char → List Char → Bool
  | [], ps => charsStartWith [] ps
  | c :: cs, ps => charsStartWith (c :: cs) ps || charsContain cs ps

/-- Python `needle in hay` on strings. -/
def strContains (hay needle : String) : Bool :=
  charsContain hay.data needle.data

/-- Python `str.lower()` (ASCII lowering, as in the source's usage). -/
def pyLower (s : String) : String :=
  String.mk (s.data.map Char.toLower)

/-- One step of `str.replace("'", "''")`: a single quote becomes two. -/
def escChar (c : Char) : List Char :=
  if c = '\'' then ['\'', '\''] else [c]

/-- Character-list form of `str.replace("'", "''")`. -/
def escList : List Char → List Char
  | [] => []
  | c :: cs => escChar c ++ escList cs

/-- Python `s.replace("'", "''")`: double every single quote (the pattern is
a single character, so per-character expansion is exactly `str.replace`). -/
def escapeQuotes (s : String) : String :=
  String.mk (escList s.data)

/-- Number of single-quote characters in a string. -/
def countQuotes (s : String) : Nat :=
  s.data.countP (fun c => c == '\'')

/-- The `count_patterns` list of `_is_count_question`. -/
def count_patterns : List String :=
  ["how many", "count", "number of", "total", "records in", "rows in", "entries in", "how much"]

/-- The `sample_patterns` list of `_is_sample_question`. -/
def sample_patterns : List String :=
  ["show me", "example", "sample", "give me", "list", "what are", "display", "fetch"]

/-- `_is_count_question`: lowercase the question and look for any count
pattern as a substring. -/
def is_count_question (question : String) : Bool :=
  count_patterns.any (fun p => strContains (pyLower question) p)

/-- `_is_sample_question`: lowercase the question and look for any sample
pattern as a substring. -/
def is_sample_question (question : String) : Bool :=
  sample_patterns.any (fun p => strContains (pyLower question) p)

/-- `build_count_query_sql`: the COUNT(*) template over the table
coordinates. -/
def build_count_query_sql (catalog schema table : String) : String :=
  "SELECT COUNT(*) AS total_records FROM " ++ catalog ++ "." ++ schema ++ "." ++ table

/-- `build_sample_query_sql`: fixed projection, non-blank content filter,
bounded by `limit`.  The Python source builds a triple-quoted template and
applies `.strip()`; the template begins and ends with fixed non-blank text,
so the strip is constant-folded into the literal below. -/
def build_sample_query_sql (catalog schema table : String) (limit : Nat) : String :=
  "SELECT \n        koo_chimeasureresponseid,\n        koo_clientid,\n        koo_responseextended,\n        koo_appcode,\n        createdon\n    FROM "
    ++ catalog ++ "." ++ schema ++ "." ++ table
    ++ "\n    WHERE koo_responseextended IS NOT NULL \n      AND TRIM(koo_responseextended) != ''\n    LIMIT "
    ++ toString limit

/-- `build_ai_query_with_data_sql`: escape the question and the data
context once, assemble the prompt, escape the whole prompt once more, and
substitute it into the `ai_query` SQL template (whose `.strip()` is
constant-folded as above). -/
def build_ai_query_with_data_sql (user_question data_context endpoint : String) : String :=
  let escaped_question := escapeQuotes user_question
  let escaped_data := escapeQuotes data_context
  let prompt :=
    "You are a healthcare data analyst assistant analyzing the measureresponses_impairment table.\n\nHere is the actual data from the database:\n"
      ++ escaped_data
      ++ "\n\nUser question: "
      ++ escaped_question
      ++ "\n\nBased on the actual data provided above, please answer the user's question directly and accurately."
  let escaped_prompt := escapeQuotes prompt
  "SELECT ai_query(\n        '" ++ endpoint ++ "',\n        '" ++ escaped_prompt
    ++ "'\n    ) AS response"

/-- `build_data_analysis_sql`: escape the question once and substitute it
directly into the per-row `ai_query`/CONCAT SQL template (`.strip()`
constant-folded; `\\n\\n` in the Python source denotes a literal
backslash-n pair, kept verbatim here). -/
def build_data_analysis_sql (user_question endpoint catalog schema table : String) (limit : Nat) : String :=
  let escaped_question := escapeQuotes user_question
  "SELECT \n        koo_chimeasureresponseid,\n        koo_responseextended,\n        ai_query(\n            '"
    ++ endpoint
    ++ "',\n            CONCAT(\n                'Analyze this healthcare response text and answer the following question: "
    ++ escaped_question
    ++ "\\n\\nText: ',\n                COALESCE(koo_responseextended, 'No text available')\n            )\n        ) AS analysis\n    FROM "
    ++ catalog ++ "." ++ schema ++ "." ++ table
    ++ "\n    WHERE koo_responseextended IS NOT NULL \n      AND TRIM(koo_responseextended) != ''\n    LIMIT "
    ++ toString limit

/-- Phase of the warehouse interaction in which an exception may be
raised. -/
inductive SqlPhase where
  | connect
  | execute
  | fetch
deriving DecidableEq

/-- Behaviour of the warehouse for one SQL statement: either some phase of
`connect`/`execute`/`fetch` raises an exception carrying the given text,
or the statement yields a tabular result (column names and rows of
values), as surfaced by `cursor.fetchall_arrow().to_pandas()`. -/
inductive FetchOutcome where
  | raises (phase : SqlPhase) (msg : String)
  | returns (colNames : List String) (rows : List (List PyValue))

/-- The environment an executor call runs in: the
`DATABRICKS_WAREHOUSE_ID` setting (`os.getenv`, `None` when unset) and
the warehouse's behaviour for each SQL text. -/
structure SqlEnv where
  warehouse_id : Option String
  outcome : String → FetchOutcome

/-- Result dictionary returned by the executors:
`{"success": True, "results": ..., "row_count": ...}` or
`{"success": False, "error": ...}`. -/
inductive ExecResult where
  | success (results : List PyRow) (row_count : Nat)
  | failure (error : String)
deriving DecidableEq

/-- `df.to_dict('records')` after `fetchall_arrow().to_pandas()`: each
fetched row becomes a dictionary keying the result set's column names to
that row's values. -/
def toRecords (colNames : List String) (rows : List (List PyValue)) : List PyRow :=
  rows.map (fun r => PyRow.dict (colNames.zip r))

/-- `_execute_sql_with_user_token`: config and token checks, then the
`try`-block body; any exception raised while connecting, executing or
fetching is caught and converted to a failure dictionary carrying
`str(e)`. -/
def execute_sql_with_user_token (query : String) (user_token : Option String) (env : SqlEnv) : ExecResult :=
  if pyTruthyStr env.warehouse_id = false then
    ExecResult.failure "DATABRICKS_WAREHOUSE_ID environment variable is not set. Please configure it in app.yaml."
  else if pyTruthyStr user_token = false then
    ExecResult.failure "User access token not available. Please ensure you are running in a Databricks App environment."
  else
    match env.outcome query with
    | FetchOutcome.raises _ msg => ExecResult.failure msg
    | FetchOutcome.returns cols rows =>
        ExecResult.success (toRecords cols rows) (toRecords cols rows).length

/-- `_execute_sql_with_service_principal`: as above but without the token
check. -/
def execute_sql_with_service_principal (query : String) (env : SqlEnv) : ExecResult :=
  if pyTruthyStr env.warehouse_id = false then
    ExecResult.failure "DATABRICKS_WAREHOUSE_ID environment variable is not set. Please configure it in app.yaml."
  else
    match env.outcome query with
    | FetchOutcome.raises _ msg => ExecResult.failure msg
    | FetchOutcome.returns cols rows =>
        ExecResult.success (toRecords cols rows) (toRecords cols rows).length

/-- `_execute_sql`: user-token path when a token is supplied (truthy),
service-principal fallback otherwise. -/
def execute_sql (query : String) (user_token : Option String) (env : SqlEnv) : ExecResult :=
  if pyTruthyStr user_token then execute_sql_with_user_token query user_token env
  else execute_sql_with_service_principal query env

/-- `AnalysisRecord` dictionaries built in the analyze branch. -/
structure AnalysisRecord where
  id : PyValue
  text_preview : String
  analysis : PyValue
deriving DecidableEq

/-- Response envelope returned by `query_impairment_data`:
`{"success": True, "response": text, "mode": mode}`,
`{"success": True, "response": [records], "mode": "analyze", "record_count": n}`,
or `{"success": False, "error": msg}`. -/
inductive Envelope where
  | successText (response : PyValue) (mode : String)
  | successAnalyses (response : List AnalysisRecord) (mode : String) (record_count : Nat)
  | failure (error : String)
deriving DecidableEq

/-- Python's `f"{n:,}"` on a natural number: decimal digits grouped in
threes by commas, built over the reversed digit list. -/
def commaRev : List Char → Nat → List Char
  | [], _ => []
  | c :: cs, k => if k = 3 then ',' :: c :: commaRev cs 1 else c :: commaRev cs (k + 1)

/-- Python's `f"{n:,}"` on an integer. -/
def formatCommaInt (i : Int) : String :=
  let digits := (toString i.natAbs).data
  let grouped := (commaRev digits.reverse 0).reverse
  if i < 0 then "-" ++ String.mk grouped else String.mk grouped

/-- Python's `f"{v:,}"` on a fetched value: the `,` format spec is valid
for ints only and raises `ValueError` text otherwise. -/
def pyFormatComma : PyValue → Except String String
  | PyValue.vInt i => Except.ok (formatCommaInt i)
  | PyValue.vStr _ => Except.error "Cannot specify ',' with 's'."
  | PyValue.vNone => Except.error "unsupported format string passed to NoneType.__format__"

/-- The count branch's context string
`f"Total records in {catalog}.{schema}.{table}: {total_records:,}"`. -/
def count_data_context (catalog schema table : String) (total_records : PyValue) : Except String String := do
  let formatted ← pyFormatComma total_records
  Except.ok ("Total records in " ++ catalog ++ "." ++ schema ++ "." ++ table ++ ": " ++ formatted)

/-- Step 2 of `query_impairment_data` (final result processing): failure
passes through; a successful result yields either the `response` field of
the first row (stringifying the row when the field is absent or the row
is not a dict) or, on zero rows, the fixed no-results message. -/
def finalProcess (result : ExecResult) (mode : String) : Envelope :=
  match result with
  | ExecResult.success results _ =>
      match results with
      | [] => Envelope.successText (PyValue.vStr "Query executed successfully but returned no results.") mode
      | first :: _ =>
          let response_text :=
            match first with
            | PyRow.dict fields =>
                match dictGetOpt fields "response" with
                | Option.some v => v
                | Option.none => PyValue.vStr (pyStrRow first)
            | PyRow.seq _ => PyValue.vStr (pyStrRow first)
          Envelope.successText response_text mode
  | ExecResult.failure err => Envelope.failure err

/-- Count branch of `query_impairment_data`: run the count query,
return its failure directly on failure, otherwise read
`results[0].get("total_records", 0)`, format the context string, and run
the ask-with-context query, handing the outcome to final processing. -/
def countFlow (user_question mode endpoint catalog schema table : String)
    (user_token : Option String) (env : SqlEnv) : Except String Envelope := do
  let count_query := build_count_query_sql catalog schema table
  let count_result := execute_sql count_query user_token env
  match count_result with
  | ExecResult.failure err => Except.ok (Envelope.failure err)
  | ExecResult.success results _ => do
      let first ← listIndex0 results
      let total_records ← rowGet first "total_records" (PyValue.vInt 0)
      let data_context ← count_data_context catalog schema table total_records
      let ai_sql := build_ai_query_with_data_sql user_question data_context endpoint
      let result := execute_sql ai_sql user_token env
      Except.ok (finalProcess result mode)

/-- Sample branch of `query_impairment_data`: run the 5-row sample query,
return its failure directly on failure, otherwise format each row's
content (200-character preview) into a numbered context block and run the
ask-with-context query. -/
def sampleFlow (user_question mode endpoint catalog schema table : String)
    (user_token : Option String) (env : SqlEnv) : Except String Envelope := do
  let sample_query := build_sample_query_sql catalog schema table 5
  let sample_result := execute_sql sample_query user_token env
  match sample_result with
  | ExecResult.failure err => Except.ok (Envelope.failure err)
  | ExecResult.success sample_rows _ => do
      let data_lines ← (List.enumFrom 1 sample_rows).mapM (fun p => do
        let v ← rowGet p.2 "koo_responseextended" (PyValue.vStr "")
        let text_preview := (pyStrValue v).take 200
        Except.ok ("Record " ++ toString p.1 ++ ": " ++ text_preview ++ "..."))
      let data_context := "Sample records from " ++ catalog ++ "." ++ schema ++ "." ++ table
        ++ ":\n" ++ String.intercalate "\n" data_lines
      let ai_sql := build_ai_query_with_data_sql user_question data_context endpoint
      let result := execute_sql ai_sql user_token env
      Except.ok (finalProcess result mode)

/-- Analyze branch of `query_impairment_data`: run the per-row analysis
query (default limit 10); on success with nonempty rows build the
analysis records (skipping non-dict rows) and return the analyze
envelope directly, otherwise fall through to final processing. -/
def analyzeFlow (user_question mode endpoint catalog schema table : String)
    (user_token : Option String) (env : SqlEnv) : Except String Envelope :=
  let query := build_data_analysis_sql user_question endpoint catalog schema table 10
  let result := execute_sql query user_token env
  match result with
  | ExecResult.success results _ =>
      if results.isEmpty then Except.ok (finalProcess result mode)
      else
        let analyses := results.filterMap (fun row =>
          match row with
          | PyRow.dict fields =>
              Option.some
                { id := dictGet fields "koo_chimeasureresponseid" (PyValue.vStr "N/A")
                  text_preview :=
                    if pyTruthyOptValue (dictGetOpt fields "koo_responseextended") then
                      (pyStrValue (dictGet fields "koo_responseextended" (PyValue.vStr ""))).take 100 ++ "..."
                    else "N/A"
                  analysis := dictGet fields "analysis" (PyValue.vStr "No analysis available") : AnalysisRecord }
          | PyRow.seq _ => Option.none)
        Except.ok (Envelope.successAnalyses analyses "analyze" analyses.length)
  | ExecResult.failure _ => Except.ok (finalProcess result mode)

/-- Context string of the general branch: a data-bearing block
(150-character previews) when the preparatory fetch succeeded with at
least one row, otherwise the fallback string naming the table. -/
def general_data_context (catalog schema table : String) (sample_result : ExecResult) : Except String String :=
  match sample_result with
  | ExecResult.success sample_rows _ =>
      if sample_rows.isEmpty then
        Except.ok ("Table: " ++ catalog ++ "." ++ schema ++ "." ++ table ++ " (unable to fetch sample data)")
      else do
        let data_lines ← (List.enumFrom 1 sample_rows).mapM (fun p => do
          let v ← rowGet p.2 "koo_responseextended" (PyValue.vStr "")
          let text_preview := (pyStrValue v).take 150
          Except.ok ("Record " ++ toString p.1 ++ ": " ++ text_preview ++ "..."))
        Except.ok ("Sample records from " ++ catalog ++ "." ++ schema ++ "." ++ table
          ++ ":\n" ++ String.intercalate "\n" data_lines)
  | ExecResult.failure _ =>
      Except.ok ("Table: " ++ catalog ++ "." ++ schema ++ "." ++ table ++ " (unable to fetch sample data)")

/-- General branch of `query_impairment_data`: best-effort 3-row sample
fetch for context, then the ask-with-context query. -/
def generalFlow (user_question mode endpoint catalog schema table : String)
    (user_token : Option String) (env : SqlEnv) : Except String Envelope := do
  let sample_query := build_sample_query_sql catalog schema table 3
  let sample_result := execute_sql sample_query user_token env
  let data_context ← general_data_context catalog schema table sample_result
  let ai_sql := build_ai_query_with_data_sql user_question data_context endpoint
  let result := execute_sql ai_sql user_token env
  Except.ok (finalProcess result mode)

/-- Body of `query_impairment_data` (the `try`-block): route on the count
check first, then the sample check, then the analyze mode, else the
general branch. -/
def query_impairment_data_body (user_question mode endpoint catalog schema table : String)
    (user_token : Option String) (env : SqlEnv) : Except String Envelope :=
  if is_count_question user_question then
    countFlow user_question mode endpoint catalog schema table user_token env
  else if is_sample_question user_question then
    sampleFlow user_question mode endpoint catalog schema table user_token env
  else if mode = "analyze" then
    analyzeFlow user_question mode endpoint catalog schema table user_token env
  else
    generalFlow user_question mode endpoint catalog schema table user_token env

/-- The top-level `except Exception as e` of `query_impairment_data`: an
uncaught exception becomes `{"success": False, "error": str(e)}`. -/
def catchEnvelope : Except String Envelope → Envelope
  | Except.ok e => e
  | Except.error msg => Envelope.failure msg

/-- `query_impairment_data`: the routed body under the top-level
exception handler. -/
def query_impairment_data (user_question mode endpoint catalog schema table : String)
    (user_token : Option String) (env : SqlEnv) : Envelope :=
  catchEnvelope (query_impairment_data_body user_question mode endpoint catalog schema table user_token env)

/-- Environment used to witness the count-before-sample routing: the
warehouse is configured and every statement raises. -/
def envC1 : SqlEnv :=
  { warehouse_id := Option.some "wh"
    outcome := fun _ => FetchOutcome.raises SqlPhase.connect "boom" }

/-- Environment in which connection acquisition raises an exception with
non-empty text. -/
def envC2raises : SqlEnv :=
  { warehouse_id := Option.some "wh"
    outcome := fun _ => FetchOutcome.raises SqlPhase.connect "connection refused" }

/-- Environment in which connection acquisition raises an exception whose
text is empty (Python `str(Exception())` is the empty string). -/
def envC2empty : SqlEnv :=
  { warehouse_id := Option.some "wh"
    outcome := fun _ => FetchOutcome.raises SqlPhase.connect "" }

/-- Environment whose analysis query returns the single row
`(koo_chimeasureresponseid: 1, koo_responseextended: "abc", analysis: "x")`. -/
def envC4 : SqlEnv :=
  { warehouse_id := Option.some "wh"
    outcome := fun _ => FetchOutcome.returns
      ["koo_chimeasureresponseid", "koo_responseextended", "analysis"]
      [[PyValue.vInt 1, PyValue.vStr "abc", PyValue.vStr "x"]] }

/-- Environment for the count-path end-to-end run: the count query yields
`total_records = 4900000`; only the ask-with-context query whose embedded
context string is exactly `Total records in c.s.t: 4,900,000` succeeds,
every other statement raises. -/
def envC5 : SqlEnv :=
  { warehouse_id := Option.some "wh"
    outcome := fun qry =>
      if qry = build_count_query_sql "c" "s" "t" then
        FetchOutcome.returns ["total_records"] [[PyValue.vInt 4900000]]
      else if qry = build_ai_query_with_data_sql "How many records are there?" "Total records in c.s.t: 4,900,000" "ep" then
        FetchOutcome.returns ["response"] [[PyValue.vStr "OK"]]
      else FetchOutcome.raises SqlPhase.execute "unexpected query" }

/-- Environment in which every statement succeeds with zero rows. -/
def envC6 : SqlEnv :=
  { warehouse_id := Option.some "wh"
    outcome := fun _ => FetchOutcome.returns ["response"] [] }

/-- Environment returning a result set with zero columns and one row. -/
def envC8 : SqlEnv :=
  { warehouse_id := Option.some "wh"
    outcome := fun _ => FetchOutcome.returns [] [[]] }

/-- Environment returning a one-column, one-row result set. -/
def envC8w : SqlEnv :=
  { warehouse_id := Option.some "wh"
    outcome := fun _ => FetchOutcome.returns ["a"] [[PyValue.vInt 5]] }

/-- Environment whose count query succeeds with zero rows. -/
def envC9 : SqlEnv :=
  { warehouse_id := Option.some "wh"
    outcome := fun _ => FetchOutcome.returns ["total_records"] [] }

/-- A 160-character content string, longer than the general branch's
150-character preview. -/
def c10text : String := String.mk (List.replicate 160 'a')

/-- Environment for the general-path run: the preparatory 3-row sample
fetch succeeds with zero rows; only the ask-with-context query embedding
the fallback context string succeeds, every other statement raises. -/
def envC10 : SqlEnv :=
  { warehouse_id := Option.some "wh"
    outcome := fun qry =>
      if qry = build_sample_query_sql "c" "s" "t" 3 then
        FetchOutcome.returns ["koo_chimeasureresponseid"] []
      else if qry = build_ai_query_with_data_sql "hi there" "Table: c.s.t (unable to fetch sample data)" "ep" then
        FetchOutcome.returns ["response"] [[PyValue.vStr "FB"]]
      else FetchOutcome.raises SqlPhase.execute "unexpected query" }

/-- `String.data` distributes over append. -/
theorem strData_append (a b : String) : (a ++ b).data = a.data ++ b.data := by
  cases a
  cases b
  rfl

/-- `escList` distributes over append. -/
theorem escList_append (l₁ l₂ : List Char) : escList (l₁ ++ l₂) = escList l₁ ++ escList l₂ := by
  induction l₁ with
  | nil => rfl
  | cons c cs ih => simp [escList, ih]

/-- The quote-doubling escape distributes over string append. -/
theorem escapeQuotes_append (a b : String) :
    escapeQuotes (a ++ b) = escapeQuotes a ++ escapeQuotes b := by
  cases a
  cases b
  simp [escapeQuotes, strData_append, escList_append]
  rfl

/-- Claim C1: for every question whose lowercased text contains a
count-indicating phrase (`is_count_question` holds), the orchestrator
takes the count path (`countFlow`) — the conclusion holds with no
condition on `is_sample_question`, so a question that also contains a
sample-indicating phrase is still routed to the count path: the count
check is made before the sample check. -/
theorem c1_count_path_precedence (q mode endpoint catalog schema table : String)
    (tok : Option String) (env : SqlEnv) (h : is_count_question q = true) :
    query_impairment_data q mode endpoint catalog schema table tok env =
      catchEnvelope (countFlow q mode endpoint catalog schema table tok env) := by
  simp [query_impairment_data, query_impairment_data_body, h]

/-- Witness for C1 at a question containing both the count phrase
`how many` and the sample phrases `show me` and `sample`. -/
theorem c1_count_path_precedence_witness :
    is_count_question "How many records? Also show me a sample" = true ∧
    is_sample_question "How many records? Also show me a sample" = true ∧
    query_impairment_data "How many records? Also show me a sample" "general" "ep" "c" "s" "t" Option.none envC1 =
      catchEnvelope (countFlow "How many records? Also show me a sample" "general" "ep" "c" "s" "t" Option.none envC1) :=
  ⟨by decide, by decide,
    c1_count_path_precedence "How many records? Also show me a sample" "general" "ep" "c" "s" "t"
      Option.none envC1 (by decide)⟩

/-- Claim C2 counterexample: a Python exception can carry empty text
(`str(Exception())` is `""`); when connection acquisition raises such an
exception, the executor returns a Failure whose message is the empty
string, refuting the claim's parenthetical that the message is always
non-empty. -/
theorem c2_counterexample :
    execute_sql_with_user_token "SELECT 1" (Option.some "tok") envC2empty = ExecResult.failure "" ∧
    String.length "" = 0 :=
  ⟨rfl, rfl⟩

/-- Claim C2 (amended): for every SQL text and either credential mode,
when the configured call reaches the warehouse and any phase of
connection acquisition, statement execution or result fetching raises an
exception, the executor returns a Failure whose message is exactly the
exception text (which is empty only when the exception text is empty);
being total functions into `ExecResult`, the executors never propagate
the exception. -/
theorem c2_exceptions_become_failures (query : String) (tok : Option String) (env : SqlEnv)
    (ph : SqlPhase) (msg : String)
    (hw : pyTruthyStr env.warehouse_id = true) (ht : pyTruthyStr tok = true)
    (hout : env.outcome query = FetchOutcome.raises ph msg) :
    execute_sql_with_user_token query tok env = ExecResult.failure msg ∧
    execute_sql_with_service_principal query env = ExecResult.failure msg := by
  constructor <;>
    simp [execute_sql_with_user_token, execute_sql_with_service_principal, hw, ht, hout]

/-- Witness for C2 (amended) at a concrete statement and environment. -/
theorem c2_exceptions_become_failures_witness :
    execute_sql_with_user_token "SELECT 1" (Option.some "tok") envC2raises =
      ExecResult.failure "connection refused" ∧
    execute_sql_with_service_principal "SELECT 1" envC2raises =
      ExecResult.failure "connection refused" :=
  c2_exceptions_become_failures "SELECT 1" (Option.some "tok") envC2raises
    SqlPhase.connect "connection refused" rfl rfl rfl

set_option maxRecDepth 20000 in
/-- Claim C5: on the count path with `total_records = 4900000` for table
coordinates `(c, s, t)`, the context string handed to the
ask-with-context builder is exactly `Total records in c.s.t: 4,900,000`
(thousands-separated).  The end-to-end conjunct pins the string
behaviourally: in `envC5` only the ask-with-context query embedding
exactly that context succeeds, and the orchestrator returns its
response. -/
theorem c5_count_context_string :
    count_data_context "c" "s" "t" (PyValue.vInt 4900000) =
      Except.ok "Total records in c.s.t: 4,900,000" ∧
    query_impairment_data "How many records are there?" "general" "ep" "c" "s" "t" Option.none envC5 =
      Envelope.successText (PyValue.vStr "OK") "general" :=
  ⟨rfl, rfl⟩

/-- Claim C6: whenever final result processing receives an execution that
succeeded with zero rows, the envelope is Success with exactly the fixed
no-results payload and the caller-supplied mode; the two run conjuncts
exercise this through the orchestrator on the general path and on the
analyze path (which falls through to final processing on zero rows). -/
theorem c6_zero_rows_success :
    (∀ (mode : String) (row_count : Nat),
      finalProcess (ExecResult.success [] row_count) mode =
        Envelope.successText (PyValue.vStr "Query executed successfully but returned no results.") mode) ∧
    query_impairment_data "hello" "general" "ep" "c" "s" "t" Option.none envC6 =
      Envelope.successText (PyValue.vStr "Query executed successfully but returned no results.") "general" ∧
    query_impairment_data "hello" "analyze" "ep" "c" "s" "t" Option.none envC6 =
      Envelope.successText (PyValue.vStr "Query executed successfully but returned no results.") "analyze" :=
  ⟨fun _ _ => rfl, rfl, rfl⟩

/-- Claim C7: `build_count_query_sql` applied to `("c", "s", "t")` yields
exactly `SELECT COUNT(*) AS total_records FROM c.s.t`, and for all
coordinates it is that template with the three components
interpolated. -/
theorem c7_count_query_template :
    build_count_query_sql "c" "s" "t" = "SELECT COUNT(*) AS total_records FROM c.s.t" ∧
    ∀ catalog schema table : String,
      build_count_query_sql catalog schema table =
        "SELECT COUNT(*) AS total_records FROM " ++ catalog ++ "." ++ schema ++ "." ++ table :=
  ⟨rfl, fun _ _ _ => rfl⟩

set_option maxRecDepth 20000 in
/-- Claim C3 counterexample: for the question `x'y`, the per-row analysis
builder embeds the single-escaped fragment `x''y` and nowhere the
double-escaped `x''''y`; the whole statement carries 10 single quotes (8
template quotes plus the one question quote doubled once), where a second
quote-doubling pass over the assembled fragment would have produced
`x''''y` and 12 quotes.  `build_data_analysis_sql` therefore applies the
escape only once, refuting the claim that every builder escapes twice. -/
theorem c3_counterexample :
    strContains (build_data_analysis_sql "x'y" "ep" "c" "s" "t" 10) "x''y" = true ∧
    strContains (build_data_analysis_sql "x'y" "ep" "c" "s" "t" 10) "x''''y" = false ∧
    countQuotes (build_data_analysis_sql "x'y" "ep" "c" "s" "t" 10) = 10 :=
  ⟨by decide, by decide, by decide⟩

/-- Claim C3 (amended): `build_ai_query_with_data_sql` applies the
quote-doubling escape twice to the user text — once to the question (and
data context) and once more to the fully assembled prompt, so the
question reaches the SQL text as `escapeQuotes (escapeQuotes q)` — while
`build_data_analysis_sql` applies it exactly once: the question reaches
the SQL text as `escapeQuotes q`, with no second pass over the assembled
fragment (its prompt is concatenated at SQL runtime inside a single
string-literal nesting level). -/
theorem c3_escape_once_vs_twice (q d e catalog schema table : String) (limit : Nat) :
    build_ai_query_with_data_sql q d e =
      "SELECT ai_query(\n        '" ++ e ++ "',\n        '"
        ++ (escapeQuotes "You are a healthcare data analyst assistant analyzing the measureresponses_impairment table.\n\nHere is the actual data from the database:\n"
            ++ escapeQuotes (escapeQuotes d)
            ++ escapeQuotes "\n\nUser question: "
            ++ escapeQuotes (escapeQuotes q)
            ++ escapeQuotes "\n\nBased on the actual data provided above, please answer the user's question directly and accurately.")
        ++ "'\n    ) AS response" ∧
    build_data_analysis_sql q e catalog schema table limit =
      "SELECT \n        koo_chimeasureresponseid,\n        koo_responseextended,\n        ai_query(\n            '"
        ++ e
        ++ "',\n            CONCAT(\n                'Analyze this healthcare response text and answer the following question: "
        ++ escapeQuotes q
        ++ "\\n\\nText: ',\n                COALESCE(koo_responseextended, 'No text available')\n            )\n        ) AS analysis\n    FROM "
        ++ catalog ++ "." ++ schema ++ "." ++ table
        ++ "\n    WHERE koo_responseextended IS NOT NULL \n      AND TRIM(koo_responseextended) != ''\n    LIMIT "
        ++ toString limit := by
  constructor
  · simp only [build_ai_query_with_data_sql, escapeQuotes_append]
  · rfl

set_option maxRecDepth 20000 in
/-- Claim C4 counterexample: on the analyze path with the single row
`(koo_chimeasureresponseid: 1, koo_responseextended: "abc", analysis: "x")`,
the orchestrator's analysis record carries `text_preview = "abc..."`
(the code appends the ellipsis whenever the content field is truthy, even
below the 100-character truncation threshold), not the claimed `"abc"`. -/
theorem c4_counterexample :
    query_impairment_data "Assess severity" "analyze" "ep" "c" "s" "t" Option.none envC4 =
      Envelope.successAnalyses
        [{ id := PyValue.vInt 1, text_preview := "abc...", analysis := PyValue.vStr "x" }] "analyze" 1 ∧
    ("abc..." : String) ≠ "abc" :=
  ⟨rfl, by decide⟩

set_option maxRecDepth 20000 in
/-- Claim C4 (amended): when the mode is `analyze`, the question is
neither a count nor a sample question, and the analysis query succeeds
with exactly the row
`(koo_chimeasureresponseid: 1, koo_responseextended: "abc", analysis: "x")`,
the orchestrator returns Success with mode `analyze` and exactly one
analysis record `(id: 1, text_preview: "abc...", analysis: "x")` — the
preview is the content with the ellipsis suffix appended. -/
theorem c4_analyze_single_row (q endpoint catalog schema table : String)
    (tok : Option String) (env : SqlEnv)
    (hc : is_count_question q = false) (hs : is_sample_question q = false)
    (hw : pyTruthyStr env.warehouse_id = true)
    (hout : env.outcome (build_data_analysis_sql q endpoint catalog schema table 10) =
      FetchOutcome.returns ["koo_chimeasureresponseid", "koo_responseextended", "analysis"]
        [[PyValue.vInt 1, PyValue.vStr "abc", PyValue.vStr "x"]]) :
    query_impairment_data q "analyze" endpoint catalog schema table tok env =
      Envelope.successAnalyses
        [{ id := PyValue.vInt 1, text_preview := "abc...", analysis := PyValue.vStr "x" }] "analyze" 1 := by
  have hexec : execute_sql (build_data_analysis_sql q endpoint catalog schema table 10) tok env =
      ExecResult.success
        [PyRow.dict [("koo_chimeasureresponseid", PyValue.vInt 1),
                     ("koo_responseextended", PyValue.vStr "abc"),
                     ("analysis", PyValue.vStr "x")]] 1 := by
    cases htok : pyTruthyStr tok <;>
      simp [execute_sql, htok, execute_sql_with_user_token, execute_sql_with_service_principal,
            hw, hout, toRecords]
  simp [query_impairment_data, query_impairment_data_body, hc, hs, analyzeFlow, hexec,
        catchEnvelope, finalProcess, dictGet, dictGetOpt, pyTruthyOptValue, pyTruthyValue,
        pyStrValue, List.filterMap]
  decide

/-- Witness for C4 (amended) at a concrete question and environment. -/
theorem c4_analyze_single_row_witness :
    query_impairment_data "Assess severity" "analyze" "ep" "c" "s" "t" Option.none envC4 =
      Envelope.successAnalyses
        [{ id := PyValue.vInt 1, text_preview := "abc...", analysis := PyValue.vStr "x" }] "analyze" 1 :=
  c4_analyze_single_row "Assess severity" "ep" "c" "s" "t" Option.none envC4
    (by decide) (by decide) rfl rfl

/-- Claim C8 counterexample: this executor has no plain-sequence
fallback — on a result set with zero columns and one row it still builds
a (here empty) name-keyed mapping, `PyRow.dict []`, not a plain ordered
value sequence `PyRow.seq []`: the fetched Arrow table is converted via
`to_pandas().to_dict('records')` unconditionally, with no branch on the
cursor descriptor. -/
theorem c8_counterexample :
    execute_sql_with_service_principal "SELECT 1" envC8 = ExecResult.success [PyRow.dict []] 1 ∧
    PyRow.dict [] ≠ PyRow.seq [] :=
  ⟨rfl, by decide⟩

/-- Claim C8 (amended): for every successfully executed statement, in
either credential mode, each result row is the field-name-keyed mapping
obtained by zipping the result set's column names with that row's values
(via the dataframe record conversion — there is no plain-sequence
fallback path), and `row_count` equals the number of rows returned. -/
theorem c8_rows_are_name_keyed_mappings (query : String) (tok : Option String) (env : SqlEnv)
    (cols : List String) (rows : List (List PyValue))
    (hw : pyTruthyStr env.warehouse_id = true) (ht : pyTruthyStr tok = true)
    (hout : env.outcome query = FetchOutcome.returns cols rows) :
    execute_sql_with_user_token query tok env =
      ExecResult.success (rows.map (fun r => PyRow.dict (cols.zip r))) rows.length ∧
    execute_sql_with_service_principal query env =
      ExecResult.success (rows.map (fun r => PyRow.dict (cols.zip r))) rows.length := by
  constructor <;>
    simp [execute_sql_with_user_token, execute_sql_with_service_principal, hw, ht, hout, toRecords]

/-- Witness for C8 (amended) at a one-column, one-row result set. -/
theorem c8_rows_are_name_keyed_mappings_witness :
    execute_sql_with_user_token "SELECT 1" (Option.some "tok") envC8w =
      ExecResult.success [PyRow.dict [("a", PyValue.vInt 5)]] 1 ∧
    execute_sql_with_service_principal "SELECT 1" envC8w =
      ExecResult.success [PyRow.dict [("a", PyValue.vInt 5)]] 1 :=
  c8_rows_are_name_keyed_mappings "SELECT 1" (Option.some "tok") envC8w ["a"] [[PyValue.vInt 5]]
    rfl rfl rfl

/-- Claim C9: when the question is a count question and the count query
succeeds with zero rows, indexing `results[0]` raises `IndexError`; the
top-level handler converts it into a Failure envelope carrying the
exception text `list index out of range` — never a Success envelope. -/
theorem c9_count_zero_rows_failure (q mode endpoint catalog schema table : String)
    (tok : Option String) (env : SqlEnv) (cols : List String)
    (hq : is_count_question q = true)
    (hw : pyTruthyStr env.warehouse_id = true)
    (hout : env.outcome (build_count_query_sql catalog schema table) = FetchOutcome.returns cols []) :
    query_impairment_data q mode endpoint catalog schema table tok env =
      Envelope.failure "list index out of range" := by
  have hexec : execute_sql (build_count_query_sql catalog schema table) tok env =
      ExecResult.success [] 0 := by
    cases htok : pyTruthyStr tok <;>
      simp [execute_sql, htok, execute_sql_with_user_token, execute_sql_with_service_principal,
            hw, hout, toRecords]
  simp [query_impairment_data, query_impairment_data_body, hq, countFlow, hexec,
        listIndex0, catchEnvelope, Except.instMonad, Except.bind]

set_option maxRecDepth 20000 in
/-- Witness for C9 at a concrete count question and environment. -/
theorem c9_count_zero_rows_failure_witness :
    query_impairment_data "how many" "general" "ep" "c" "s" "t" Option.none envC9 =
      Envelope.failure "list index out of range" :=
  c9_count_zero_rows_failure "how many" "general" "ep" "c" "s" "t" Option.none envC9
    ["total_records"] (by decide) rfl rfl

set_option maxRecDepth 20000 in
/-- Claim C10: in the general branch, the fallback context string naming
the table is used both when the preparatory 3-row fetch fails and when it
succeeds with zero rows; a data-bearing context block (150-character
previews with an ellipsis appended) is built only when the fetch succeeds
with at least one row.  The run conjunct shows the zero-row fallback
flowing into the ask-with-context query through the orchestrator: in
`envC10` only the query embedding the fallback context succeeds. -/
theorem c10_general_fallback_context :
    (∀ catalog schema table err : String,
      general_data_context catalog schema table (ExecResult.failure err) =
        Except.ok ("Table: " ++ catalog ++ "." ++ schema ++ "." ++ table ++ " (unable to fetch sample data)")) ∧
    (∀ (catalog schema table : String) (row_count : Nat),
      general_data_context catalog schema table (ExecResult.success [] row_count) =
        Except.ok ("Table: " ++ catalog ++ "." ++ schema ++ "." ++ table ++ " (unable to fetch sample data)")) ∧
    general_data_context "c" "s" "t"
        (ExecResult.success [PyRow.dict [("koo_responseextended", PyValue.vStr c10text)]] 1) =
      Except.ok ("Sample records from c.s.t:\nRecord 1: " ++ c10text.take 150 ++ "...") ∧
    query_impairment_data "hi there" "general" "ep" "c" "s" "t" Option.none envC10 =
      Envelope.successText (PyValue.vStr "FB") "general" :=
  ⟨fun _ _ _ _ => rfl, fun _ _ _ _ => rfl, rfl, rfl⟩
